import Mathlib

/-
Shallow embedding of `snips_nlu/intent_classifier/feature_extraction.py`.

The module's own logic (Featurizer, preprocessing, selection, serialization)
is translated directly.  External collaborators (the light tokenizer, the
normalizer/stemmer, stop-word resources, the n-gram extractor, the builtin
entity predicate, and the numeric kernels of sklearn: the smoothed-IDF
value, square roots for L2 normalization, and the chi-squared p-values) are
passed in as explicit parameters (`Resources` / `Externals`), so every
theorem is quantified over all implementations of those collaborators.

Python exceptions are modelled by `Except PyErr`; the `None` value returned
by an aborted `fit` is modelled by `Option`.
-/

set_option maxRecDepth 8000

set_option allowUnsafeReducibility true
attribute [semireducible] Rat.mul Rat.inv Rat.add Rat.sub Rat.neg

namespace Snips

/-- A language, as used by the module: an ISO code and a default token
separator (`language.iso_code`, `language.default_sep` in the source). -/
structure Language where
  isoCode : String
  defaultSep : String
deriving DecidableEq

/-- The Python exception kinds that the claims distinguish. -/
inductive PyErr where
  | attributeError
  | notFittedError
  | typeError
  | stateMismatchError
  | unknownLanguageError
deriving DecidableEq

/-- External language resources and collaborators of the module
(`tokenize_light`, `normalize`, `stem`, `get_stems`, `get_stop_words`,
`get_word_clusters`, `get_all_ngrams`, `is_builtin_entity`,
`Language.EN`, `Language.from_iso_code`'s table of recognized languages). -/
structure Resources where
  tokenizeLight : String → Language → List String
  normalize : String → String
  stemsLangs : List Language
  stem : String → Language → String
  stopWords : Language → List String
  wordClusters : Language → String → String → Option String
  allNgrams : List String → List String
  isBuiltinEntity : String → Bool
  langEN : Language
  knownLanguages : List Language

/-- The numeric collaborators of the module together with the resources:
`sqrtFn` is the square root used by sklearn's L2 row normalization,
`idfOf N df` the per-term IDF weight computed by `TfidfVectorizer.fit`,
and `chi2pvals` the p-values returned by `sklearn.feature_selection.chi2`. -/
structure Externals (α : Type) where
  R : Resources
  sqrtFn : α → α
  idfOf : ℕ → ℕ → α
  chi2pvals : List (List α) → List ℕ → List α

/-- The module-level `CLUSTER_USED_PER_LANGUAGES = {}` constant: the table
is empty in the source, so no language has a configured cluster name. -/
def CLUSTER_USED_PER_LANGUAGES : List (Language × String) := []

/-- Source `entity_name_to_feature`: `"entityfeature" + "".join(tokenize_light(entity_name, EN))`. -/
def entity_name_to_feature (R : Resources) (entityName : String) : String :=
  "entityfeature" ++ String.join (R.tokenizeLight entityName R.langEN)

/-- Source `normalize_stem`: normalize, then stem when the language has
stemming resources. -/
def normalize_stem (R : Resources) (text : String) (language : Language) : String :=
  let normalizedStemmed := R.normalize text
  if language ∈ R.stemsLangs then R.stem normalizedStemmed language else normalizedStemmed

/-- Source `get_word_cluster_features`: look up the language's configured
cluster name in `CLUSTER_USED_PER_LANGUAGES` (empty, so this always yields
`[]`), then collect the cluster of every matching lowercased n-gram. -/
def get_word_cluster_features (R : Resources) (queryTokens : List String)
    (language : Language) : List String :=
  match (CLUSTER_USED_PER_LANGUAGES.find? (fun p => decide (p.1 = language))).map Prod.snd with
  | none => []
  | some clusterName =>
      (R.allNgrams queryTokens).filterMap (fun ng => R.wordClusters language clusterName ng.toLower)

/-- The entity index owned by the Featurizer: normalized-stemmed utterance
text mapped to the list of entity names it can denote (a Python
`dict` of `set`s, modelled as an association list of duplicate-free lists
in insertion order). -/
abbrev EntityIndex := List (String × List String)

/-- Add one `(key, name)` pair to the multimap with set semantics on the
value side (`entities_utterances[u].add(entity_name)`). -/
def multimapAdd : EntityIndex → String → String → EntityIndex
  | [], k, n => [(k, [n])]
  | (k', ns) :: rest, k, n =>
      if k' = k then (k', if n ∈ ns then ns else ns ++ [n]) :: rest
      else (k', ns) :: multimapAdd rest k n

/-- Look a key up in an association list. -/
def alistFind {β : Type} (m : List (String × β)) (k : String) : Option β :=
  (m.find? (fun p => decide (p.1 = k))).map Prod.snd

/-- One data entry of a custom entity: a value and its synonyms. -/
structure EntityEntry where
  value : String
  synonyms : List String
deriving DecidableEq

/-- One entity definition of the dataset: the `use_synonyms` flag and the
entry list. -/
structure EntityData where
  useSynonyms : Bool
  data : List EntityEntry
deriving DecidableEq

/-- The part of the dataset the module reads: `dataset[ENTITIES]`. -/
structure Dataset where
  entities : List (String × EntityData)
deriving DecidableEq

/-- The utterances collected for one entity definition: every value and
every synonym when `use_synonyms` is set, otherwise only the values. -/
def entityUtterances (e : EntityData) : List String :=
  if e.useSynonyms then (e.data.map (fun ent => ent.value :: ent.synonyms)).flatten
  else e.data.map (fun ent => ent.value)

/-- Source `get_utterances_entities`: for every non-builtin entity, record
the entity's name under each of its collected utterance texts. -/
def get_utterances_entities (R : Resources) (ds : Dataset) : EntityIndex :=
  List.foldl
    (fun m p =>
      if R.isBuiltinEntity p.1 then m
      else List.foldl (fun m' u => multimapAdd m' u p.1) m (entityUtterances p.2))
    [] ds.entities

/-- The first half of `Featurizer.fit` (lines 139-145): rebuild the
utterance-to-entity-names index with normalized-stemmed keys. -/
def entityIndexOfDataset (R : Resources) (language : Language) (ds : Dataset) : EntityIndex :=
  List.foldl
    (fun m p => List.foldl (fun m' n => multimapAdd m' (normalize_stem R p.1 language) n) m p.2)
    [] (get_utterances_entities R ds)

/-- Source `get_dataset_entities_features` on a present entity index: for
every n-gram over the normalized-stemmed tokens, emit the synthetic
feature token of every matching entity name. -/
def get_dataset_entities_features (R : Resources) (toks : List String)
    (m : EntityIndex) : List String :=
  ((R.allNgrams toks).map
    (fun ng => ((alistFind m ng).getD []).map (fun name => entity_name_to_feature R name))).flatten

/-- Source `get_dataset_entities_features` with a possibly-absent index:
when the Featurizer was never fitted the index is Python `None`, and the
first loop iteration's `None.get(...)` raises an AttributeError; with no
n-grams the loop body never runs and the result is `[]`. -/
def get_dataset_entities_features_opt (R : Resources) (toks : List String) :
    Option EntityIndex → Except PyErr (List String)
  | some m => Except.ok (get_dataset_entities_features R toks m)
  | none =>
      if (R.allNgrams toks).isEmpty then Except.ok [] else Except.error PyErr.attributeError

/-- The pseudo-document assembly at the end of `preprocess_query`:
normalized-stemmed tokens joined by the default separator, then the entity
features, then the cluster features, each block space-separated. -/
def assembleFeatures (sep : String) (normToks entFeats clustFeats : List String) : String :=
  let features := String.intercalate sep normToks
  let features := if entFeats.length ≠ 0 then features ++ " " ++ String.intercalate " " entFeats else features
  if clustFeats.length ≠ 0 then features ++ " " ++ String.intercalate " " clustFeats else features

/-- Source `preprocess_query` (entity index possibly `None`, as invoked by
`transform` on an unfitted Featurizer). -/
def preprocess_query (R : Resources) (query : String) (language : Language)
    (m : Option EntityIndex) : Except PyErr String :=
  let queryTokens := R.tokenizeLight query language
  let wordClustersFeatures := get_word_cluster_features R queryTokens language
  let normalizedStemmedTokens := queryTokens.map (fun t => normalize_stem R t language)
  match get_dataset_entities_features_opt R normalizedStemmedTokens m with
  | Except.error e => Except.error e
  | Except.ok entitiesFeatures =>
      Except.ok (assembleFeatures language.defaultSep normalizedStemmedTokens
        entitiesFeatures wordClustersFeatures)

/-- Source `preprocess_query` on the fit path, where the entity index was
just rebuilt and is always present. -/
def preprocess_query_fit (R : Resources) (query : String) (language : Language)
    (m : EntityIndex) : String :=
  let queryTokens := R.tokenizeLight query language
  let wordClustersFeatures := get_word_cluster_features R queryTokens language
  let normalizedStemmedTokens := queryTokens.map (fun t => normalize_stem R t language)
  assembleFeatures language.defaultSep normalizedStemmedTokens
    (get_dataset_entities_features R normalizedStemmedTokens m) wordClustersFeatures

/-- The n-grams a query contributes in `get_dataset_entities_features`
(n-grams over its normalized-stemmed tokens). -/
def queryNgrams (R : Resources) (language : Language) (q : String) : List String :=
  R.allNgrams ((R.tokenizeLight q language).map (fun t => normalize_stem R t language))

/-- Source `Featurizer.preprocess_queries`: preprocess each query in order;
the first raised exception propagates. -/
def preprocessQueriesList (R : Resources) (language : Language)
    (m : Option EntityIndex) : List String → Except PyErr (List String)
  | [] => Except.ok []
  | q :: rest =>
      match preprocess_query R q language m with
      | Except.error e => Except.error e
      | Except.ok d => (preprocessQueriesList R language m rest).map (fun ds => d :: ds)

/-- Append a term to the vocabulary if it is new (vocabulary construction of
the vectorizer fit, modelled from the spec: each distinct term of the corpus
gets a dense column index; the assignment order is an implementation
choice, modelled as first-occurrence order). -/
def addDistinct (acc : List String) (t : String) : List String :=
  if t ∈ acc then acc else acc ++ [t]

/-- The learned vocabulary of the corpus: distinct terms in first-occurrence
order; a term's column index is its position in this list. -/
def buildVocab (docsTerms : List (List String)) : List String :=
  List.foldl addDistinct [] docsTerms.flatten

/-- Document frequency of a term: the number of documents containing it. -/
def docFreq (docsTerms : List (List String)) (t : String) : ℕ :=
  (docsTerms.filter (fun d => d.contains t)).length

/-- The fitted IDF diagonal: one weight per vocabulary term, index-aligned
with the vocabulary, computed by the external IDF kernel from the corpus
size and the term's document frequency. -/
def fitIdf {α : Type} (E : Externals α) (docsTerms : List (List String)) : List α :=
  (buildVocab docsTerms).map (fun t => E.idfOf docsTerms.length (docFreq docsTerms t))

/-- Modelled from the spec: sklearn's L2 row normalization of
`TfidfVectorizer.transform` (rows with zero norm are left unchanged). -/
def l2normalize {α : Type} [LinearOrderedField α] (E : Externals α) (v : List α) : List α :=
  let s := E.sqrtFn (List.foldl (fun a x => a + x * x) 0 v)
  if s = 0 then v else v.map (fun x => x / s)

/-- Modelled from the spec: one row of the term-weight matrix, the
L2-normalized per-vocabulary-term counts multiplied by the IDF weights. -/
def tfidfRow {α : Type} [LinearOrderedField α] (E : Externals α) (vocab : List String)
    (idf : List α) (docTerms : List String) : List α :=
  l2normalize E (List.zipWith (fun t w => (docTerms.count t : α) * w) vocab idf)

/-- Minimum of a list with a default for the empty list (`pval.min()`). -/
def listMinD {α : Type} [LinearOrder α] (l : List α) (dflt : α) : α :=
  match l with
  | [] => dflt
  | x :: xs => List.foldl min x xs

/-- Lines 160-164 of the source: keep the column indices whose p-value is
strictly below the threshold; if none qualifies, keep instead the indices
whose p-value equals the minimum p-value. -/
def select_best_features {α : Type} [LinearOrderedField α] (threshold : α)
    (pval : List α) : List ℕ :=
  let best := (pval.enum.filter (fun p => decide (p.2 < threshold))).map Prod.fst
  if best.isEmpty then
    (pval.enum.filter (fun p => decide (p.2 = listMinD pval 0))).map Prod.fst
  else best

/-- The stop-word demotion condition of lines 170-173: the selected term is
a stop word and its p-value strictly exceeds half the threshold. -/
def condStop {α : Type} [LinearOrderedField α] (stopWords : List String)
    (vocab : List String) (threshold : α) (pval : List α) (i : ℕ) : Bool :=
  decide (vocab.getD i "" ∈ stopWords ∧ threshold / 2 < pval.getD i 0)

/-- The demotion loop of lines 170-173: walk the snapshot of selected
features and remove each demoted one from the selection list
(`self.best_features.remove(feat)` removes the first occurrence). -/
def removeStopLoop {α : Type} [LinearOrderedField α] (stopWords : List String)
    (vocab : List String) (threshold : α) (pval : List α) :
    List ℕ → List ℕ → List ℕ
  | acc, [] => acc
  | acc, feat :: rest =>
      if condStop stopWords vocab threshold pval feat then
        removeStopLoop stopWords vocab threshold pval (acc.erase feat) rest
      else
        removeStopLoop stopWords vocab threshold pval acc rest

/-- Lines 166-173 of the source: the stop-word demotion pass over the
selected features (the snapshot iterated is the selection itself, whose
indices are pairwise distinct). -/
def remove_stop_features {α : Type} [LinearOrderedField α] (stopWords : List String)
    (vocab : List String) (threshold : α) (pval : List α) (best : List ℕ) : List ℕ :=
  removeStopLoop stopWords vocab threshold pval best best

/-- The state of the wrapped `TfidfVectorizer`: `none` before a fit (no
`vocabulary_`, no `_idf_diag`), otherwise the vocabulary and the IDF
diagonal. -/
structure TfidfVectorizerState (α : Type) where
  fitted : Option (List String × List α)
deriving DecidableEq

/-- The Featurizer's state: the fields set by `Featurizer.__init__`. -/
structure Featurizer (α : Type) where
  language : Language
  tfidfVectorizer : TfidfVectorizerState α
  bestFeatures : Option (List ℕ)
  pvalueThreshold : α
  entityMap : Option EntityIndex
deriving DecidableEq

/-- `Featurizer.__init__` with all defaults: a fresh default vectorizer, no
selected features, threshold 0.4, no entity index. -/
def Featurizer.mkDefault {α : Type} [LinearOrderedField α] (language : Language) : Featurizer α :=
  { language := language
    tfidfVectorizer := ⟨none⟩
    bestFeatures := none
    pvalueThreshold := 2 / 5
    entityMap := none }

/-- The degenerate-corpus test of lines 147-148:
`all(len("".join(tokenize_light(q, language))) == 0 for q in queries)`. -/
def degenerateCorpus (R : Resources) (language : Language) (queries : List String) : Bool :=
  queries.all (fun q => (String.join (R.tokenizeLight q language)).length == 0)

/-- The corpus fed to the vectorizer on the fit path: each query
preprocessed against the entity index `m`, then tokenized by the
vectorizer's tokenizer (`tokenize_light` with the Featurizer's language). -/
def fitCorpusTerms (R : Resources) (language : Language) (m : EntityIndex)
    (queries : List String) : List (List String) :=
  queries.map (fun q => R.tokenizeLight (preprocess_query_fit R q language m) language)

/-- The corpus of a fit call, with the entity index rebuilt from the dataset. -/
def fitTerms (R : Resources) (language : Language) (ds : Dataset)
    (queries : List String) : List (List String) :=
  fitCorpusTerms R language (entityIndexOfDataset R language ds) queries

/-- The vocabulary learned by a fit call. -/
def fitVocab (R : Resources) (language : Language) (ds : Dataset)
    (queries : List String) : List String :=
  buildVocab (fitTerms R language ds queries)

/-- The IDF diagonal learned by a fit call. -/
def fitIdfDiag {α : Type} (E : Externals α) (language : Language) (ds : Dataset)
    (queries : List String) : List α :=
  fitIdf E (fitTerms E.R language ds queries)

/-- The weighted term matrix `X_train_tfidf` of a fit call. -/
def fitMatrix {α : Type} [LinearOrderedField α] (E : Externals α) (language : Language)
    (ds : Dataset) (queries : List String) : List (List α) :=
  (fitTerms E.R language ds queries).map
    (fun d => tfidfRow E (fitVocab E.R language ds queries) (fitIdfDiag E language ds queries) d)

/-- The chi-squared p-values `pval` of a fit call. -/
def fitPvals {α : Type} [LinearOrderedField α] (E : Externals α) (language : Language)
    (ds : Dataset) (queries : List String) (y : List ℕ) : List α :=
  E.chi2pvals (fitMatrix E language ds queries) y

/-- The Featurizer state after a successful (non-aborted) fit: entity index
rebuilt, vectorizer fitted, and the selected features stored after the
threshold/fallback selection and the stop-word demotion pass. -/
def fittedState {α : Type} [LinearOrderedField α] (E : Externals α) (st : Featurizer α)
    (ds : Dataset) (queries : List String) (y : List ℕ) : Featurizer α :=
  { st with
    entityMap := some (entityIndexOfDataset E.R st.language ds)
    tfidfVectorizer := ⟨some (fitVocab E.R st.language ds queries, fitIdfDiag E st.language ds queries)⟩
    bestFeatures := some (remove_stop_features (E.R.stopWords st.language)
      (fitVocab E.R st.language ds queries) st.pvalueThreshold
      (fitPvals E st.language ds queries y)
      (select_best_features st.pvalueThreshold (fitPvals E st.language ds queries y))) }

/-- Source `Featurizer.fit` (lines 138-175): rebuild and store the entity
index; if every query tokenizes to zero non-empty tokens return the `None`
sentinel (second component `none`); otherwise fit the vectorizer, select
features, demote stop words, store everything and return `self`. -/
def Featurizer.fit {α : Type} [LinearOrderedField α] (E : Externals α) (st : Featurizer α)
    (ds : Dataset) (queries : List String) (y : List ℕ) :
    Featurizer α × Option (Featurizer α) :=
  if degenerateCorpus E.R st.language queries then
    ({ st with entityMap := some (entityIndexOfDataset E.R st.language ds) }, none)
  else
    (fittedState E st ds queries y, some (fittedState E st ds queries y))

/-- Source `Featurizer.transform` (lines 177-181): preprocess the queries
(an absent entity index raises an AttributeError as soon as a query has
n-grams), apply the vectorizer (an unfitted vectorizer raises sklearn's
NotFittedError, modelled from the spec), then project onto the selected
columns (`X[:, None]` would raise a TypeError). -/
def Featurizer.transform {α : Type} [LinearOrderedField α] (E : Externals α)
    (st : Featurizer α) (queries : List String) : Except PyErr (List (List α)) :=
  match preprocessQueriesList E.R st.language st.entityMap queries with
  | Except.error e => Except.error e
  | Except.ok docs =>
      match st.tfidfVectorizer.fitted with
      | none => Except.error PyErr.notFittedError
      | some vi =>
          let rows := docs.map (fun d => tfidfRow E vi.1 vi.2 (E.R.tokenizeLight d st.language))
          match st.bestFeatures with
          | none => Except.error PyErr.typeError
          | some best => Except.ok (rows.map (fun r => best.map (fun i => r.getD i 0)))

/-- Source `Featurizer.fit_transform` (lines 183-184):
`self.fit(dataset, queries, y).transform(queries)`.  When `fit` aborts it
returns `None`, and `None.transform(queries)` raises an AttributeError. -/
def Featurizer.fit_transform {α : Type} [LinearOrderedField α] (E : Externals α)
    (st : Featurizer α) (ds : Dataset) (queries : List String) (y : List ℕ) :
    Featurizer α × Except PyErr (List (List α)) :=
  match Featurizer.fit E st ds queries y with
  | (st1, none) => (st1, Except.error PyErr.attributeError)
  | (_, some st2) => (st2, Featurizer.transform E st2 queries)

/-- The serialized state map produced by `Featurizer.to_dict`: language
code, vocabulary, IDF diagonal data, selected features, threshold and the
entity index (sets serialized as lists). -/
structure SerializedFeaturizer (α : Type) where
  languageCode : String
  vocab : List String
  idfDiag : List α
  bestFeatures : Option (List ℕ)
  pvalueThreshold : α
  entityUtterancesToEntityNames : EntityIndex
deriving DecidableEq

/-- Source `Featurizer.to_dict` (lines 186-202): read `vocabulary_` and
`_idf_diag` off the vectorizer and `iteritems` off the entity index; on an
unfitted Featurizer these attribute accesses raise an AttributeError. -/
def Featurizer.to_dict {α : Type} (st : Featurizer α) : Except PyErr (SerializedFeaturizer α) :=
  match st.tfidfVectorizer.fitted, st.entityMap with
  | some vi, some m =>
      Except.ok
        { languageCode := st.language.isoCode
          vocab := vi.1
          idfDiag := vi.2
          bestFeatures := st.bestFeatures
          pvalueThreshold := st.pvalueThreshold
          entityUtterancesToEntityNames := m }
  | _, _ => Except.error PyErr.attributeError

/-- Source `deserialize_tfidf_vectorizer` (lines 100-111): install the
serialized vocabulary and rebuild the IDF diagonal from the serialized
data, with no consistency check between the two. -/
def deserialize_tfidf_vectorizer {α : Type} (vocab : List String) (idfDiag : List α) :
    TfidfVectorizerState α :=
  ⟨some (vocab, idfDiag)⟩

/-- Source `Featurizer.from_dict` (lines 204-220): `Language.from_iso_code`
first (modelled from the spec: it raises an UnknownLanguageError when the
code is not among the recognized languages), then reconstruct the
vectorizer and the Featurizer; no validation relates the vocabulary length
to the IDF sequence length. -/
def Featurizer.from_dict {α : Type} (R : Resources) (d : SerializedFeaturizer α) :
    Except PyErr (Featurizer α) :=
  match R.knownLanguages.find? (fun l => decide (l.isoCode = d.languageCode)) with
  | none => Except.error PyErr.unknownLanguageError
  | some language =>
      Except.ok
        { language := language
          tfidfVectorizer := deserialize_tfidf_vectorizer d.vocab d.idfDiag
          bestFeatures := d.bestFeatures
          pvalueThreshold := d.pvalueThreshold
          entityMap := some d.entityUtterancesToEntityNames }

instance {ε σ : Type} [DecidableEq ε] [DecidableEq σ] : DecidableEq (Except ε σ) := fun a b =>
  match a, b with
  | Except.error x, Except.error y =>
      if h : x = y then isTrue (by rw [h]) else isFalse (fun hc => h (Except.error.inj hc))
  | Except.ok x, Except.ok y =>
      if h : x = y then isTrue (by rw [h]) else isFalse (fun hc => h (Except.ok.inj hc))
  | Except.error _, Except.ok _ => isFalse (fun hc => Except.noConfusion hc)
  | Except.ok _, Except.error _ => isFalse (fun hc => Except.noConfusion hc)

/-- The English language constant used by the concrete witnesses. -/
def enLang : Language := ⟨"en", " "⟩

/-- Split a character list on spaces, dropping empty tokens (helper of the
witnesses' concrete tokenizer; structurally recursive so that concrete
inputs evaluate inside the kernel). -/
def wsSplitAux (cur : List Char) : List Char → List String
  | [] => if cur.isEmpty then [] else [String.mk cur.reverse]
  | c :: cs =>
      if c = ' ' then
        (if cur.isEmpty then wsSplitAux [] cs else String.mk cur.reverse :: wsSplitAux [] cs)
      else wsSplitAux (c :: cur) cs

/-- A concrete whitespace tokenizer for the witnesses. -/
def wsTokenize (s : String) : List String := wsSplitAux [] s.data

/-- A concrete, executable instantiation of the external collaborators used
by the witnesses: a whitespace tokenizer, identity normalization, no
stemming, stop words `"a"` and `"b"`, unigram n-grams, no clusters, and
English as the only recognized language. -/
def R0 : Resources :=
  { tokenizeLight := fun s _ => wsTokenize s
    normalize := fun s => s
    stemsLangs := []
    stem := fun s _ => s
    stopWords := fun _ => ["a", "b"]
    wordClusters := fun _ _ _ => none
    allNgrams := fun ts => ts
    isBuiltinEntity := fun _ => false
    langEN := ⟨"en", " "⟩
    knownLanguages := [⟨"en", " "⟩] }

/-- Concrete rational-valued externals for the witnesses, with a constant
chi-squared kernel. -/
def EQ0 : Externals ℚ :=
  { R := R0
    sqrtFn := fun x => x
    idfOf := fun _ _ => 1
    chi2pvals := fun _ _ => [] }

/-- A dataset with no entities. -/
def dsEmpty : Dataset := ⟨[]⟩

/-- A dataset with one custom entity using synonyms, for the witnesses. -/
def dsCity : Dataset := ⟨[("city", ⟨true, [⟨"paris", ["Paris"]⟩]⟩)]⟩

lemma fit_degenerate {α : Type} [LinearOrderedField α] (E : Externals α) (st : Featurizer α)
    (ds : Dataset) (qs : List String) (y : List ℕ)
    (h : degenerateCorpus E.R st.language qs = true) :
    Featurizer.fit E st ds qs y
      = ({ st with entityMap := some (entityIndexOfDataset E.R st.language ds) }, none) := by
  simp [Featurizer.fit, h]

lemma fit_success {α : Type} [LinearOrderedField α] (E : Externals α) (st : Featurizer α)
    (ds : Dataset) (qs : List String) (y : List ℕ)
    (h : degenerateCorpus E.R st.language qs = false) :
    Featurizer.fit E st ds qs y = (fittedState E st ds qs y, some (fittedState E st ds qs y)) := by
  simp [Featurizer.fit, h]

/-- C2: on a corpus in which every query tokenizes to zero non-empty
tokens, `Featurizer.fit` returns the `None` sentinel (not an exception):
the vectorizer is left unfitted and no features are selected. -/
theorem fit_degenerate_returns_none {α : Type} [LinearOrderedField α] (E : Externals α)
    (st : Featurizer α) (ds : Dataset) (qs : List String) (y : List ℕ)
    (hdeg : degenerateCorpus E.R st.language qs = true) :
    (Featurizer.fit E st ds qs y).2 = none
    ∧ (Featurizer.fit E st ds qs y).1.tfidfVectorizer = st.tfidfVectorizer
    ∧ (Featurizer.fit E st ds qs y).1.bestFeatures = st.bestFeatures := by
  rw [fit_degenerate E st ds qs y hdeg]
  exact ⟨rfl, rfl, rfl⟩

/-- Witness for C2 at the spec's concrete degenerate queries. -/
theorem fit_degenerate_returns_none_witness :
    degenerateCorpus EQ0.R (Featurizer.mkDefault enLang : Featurizer ℚ).language ["", "   "] = true
    ∧ ((Featurizer.fit EQ0 (Featurizer.mkDefault enLang : Featurizer ℚ) dsEmpty ["", "   "] []).2 = none
       ∧ (Featurizer.fit EQ0 (Featurizer.mkDefault enLang : Featurizer ℚ) dsEmpty ["", "   "] []).1.tfidfVectorizer
           = (Featurizer.mkDefault enLang : Featurizer ℚ).tfidfVectorizer
       ∧ (Featurizer.fit EQ0 (Featurizer.mkDefault enLang : Featurizer ℚ) dsEmpty ["", "   "] []).1.bestFeatures
           = (Featurizer.mkDefault enLang : Featurizer ℚ).bestFeatures) :=
  ⟨by decide,
   fit_degenerate_returns_none EQ0 (Featurizer.mkDefault enLang) dsEmpty ["", "   "] [] (by decide)⟩

/-- C3 counterexample: on the degenerate corpus the claim says
`fit_transform` yields the no-op sentinel like `fit` does; in fact `fit`
does return the sentinel, but `fit_transform` calls `.transform` on it and
raises an AttributeError. -/
theorem fit_transform_degenerate_raises_cx :
    (Featurizer.fit EQ0 (Featurizer.mkDefault enLang : Featurizer ℚ) dsEmpty ["", "   "] []).2 = none
    ∧ (Featurizer.fit_transform EQ0 (Featurizer.mkDefault enLang : Featurizer ℚ) dsEmpty ["", "   "] []).2
        = Except.error PyErr.attributeError := by
  exact ⟨by decide, by decide⟩

/-- C3 amended: whenever `fit` aborts on a degenerate corpus,
`fit_transform` raises an AttributeError (the method call on the `None`
sentinel) instead of returning the sentinel. -/
theorem fit_transform_degenerate_attribute_error {α : Type} [LinearOrderedField α]
    (E : Externals α) (st : Featurizer α) (ds : Dataset) (qs : List String) (y : List ℕ)
    (hdeg : degenerateCorpus E.R st.language qs = true) :
    (Featurizer.fit_transform E st ds qs y).2 = Except.error PyErr.attributeError := by
  simp [Featurizer.fit_transform, fit_degenerate E st ds qs y hdeg]

/-- Witness for the amended C3. -/
theorem fit_transform_degenerate_attribute_error_witness :
    degenerateCorpus EQ0.R (Featurizer.mkDefault enLang : Featurizer ℚ).language [""] = true
    ∧ (Featurizer.fit_transform EQ0 (Featurizer.mkDefault enLang : Featurizer ℚ) dsEmpty [""] []).2
        = Except.error PyErr.attributeError :=
  ⟨by decide,
   fit_transform_degenerate_attribute_error EQ0 (Featurizer.mkDefault enLang) dsEmpty [""] [] (by decide)⟩

/-- C10: even when `fit` aborts on a degenerate corpus, it has already
replaced the stored entity index with the one freshly rebuilt from the
dataset (normalized-stemmed keys), while the vectorizer, the selected
features and the threshold are left unchanged. -/
theorem fit_degenerate_rebuilds_entity_index {α : Type} [LinearOrderedField α] (E : Externals α)
    (st : Featurizer α) (ds : Dataset) (qs : List String) (y : List ℕ)
    (hdeg : degenerateCorpus E.R st.language qs = true) :
    (Featurizer.fit E st ds qs y).1.entityMap = some (entityIndexOfDataset E.R st.language ds)
    ∧ (Featurizer.fit E st ds qs y).1.tfidfVectorizer = st.tfidfVectorizer
    ∧ (Featurizer.fit E st ds qs y).1.bestFeatures = st.bestFeatures
    ∧ (Featurizer.fit E st ds qs y).1.pvalueThreshold = st.pvalueThreshold
    ∧ (Featurizer.fit E st ds qs y).2 = none := by
  rw [fit_degenerate E st ds qs y hdeg]
  exact ⟨rfl, rfl, rfl, rfl, rfl⟩

/-- Witness for C10, with a dataset whose entity index is visibly rebuilt. -/
theorem fit_degenerate_rebuilds_entity_index_witness :
    degenerateCorpus EQ0.R (Featurizer.mkDefault enLang : Featurizer ℚ).language ["", "   "] = true
    ∧ entityIndexOfDataset EQ0.R enLang dsCity = [("paris", ["city"]), ("Paris", ["city"])]
    ∧ ((Featurizer.fit EQ0 (Featurizer.mkDefault enLang : Featurizer ℚ) dsCity ["", "   "] []).1.entityMap
         = some (entityIndexOfDataset EQ0.R (Featurizer.mkDefault enLang : Featurizer ℚ).language dsCity)
       ∧ (Featurizer.fit EQ0 (Featurizer.mkDefault enLang : Featurizer ℚ) dsCity ["", "   "] []).1.tfidfVectorizer
           = (Featurizer.mkDefault enLang : Featurizer ℚ).tfidfVectorizer
       ∧ (Featurizer.fit EQ0 (Featurizer.mkDefault enLang : Featurizer ℚ) dsCity ["", "   "] []).1.bestFeatures
           = (Featurizer.mkDefault enLang : Featurizer ℚ).bestFeatures
       ∧ (Featurizer.fit EQ0 (Featurizer.mkDefault enLang : Featurizer ℚ) dsCity ["", "   "] []).1.pvalueThreshold
           = (Featurizer.mkDefault enLang : Featurizer ℚ).pvalueThreshold
       ∧ (Featurizer.fit EQ0 (Featurizer.mkDefault enLang : Featurizer ℚ) dsCity ["", "   "] []).2 = none) :=
  ⟨by decide, by decide,
   fit_degenerate_rebuilds_entity_index EQ0 (Featurizer.mkDefault enLang) dsCity ["", "   "] [] (by decide)⟩

/-- A serialized state whose vocabulary length (2) disagrees with its IDF
sequence length (1), over a recognized language. -/
def dMismatch : SerializedFeaturizer ℚ := ⟨"en", ["u", "v"], [1], some [0], 2/5, []⟩

/-- C8 counterexample: `from_dict` performs no consistency check between
the vocabulary and the IDF sequence; the mismatched state is deserialized
into a Featurizer without a StateMismatchError. -/
theorem from_dict_accepts_length_mismatch_cx :
    dMismatch.vocab.length = 2
    ∧ dMismatch.idfDiag.length = 1
    ∧ Featurizer.from_dict R0 dMismatch
        = Except.ok ⟨enLang, ⟨some (["u", "v"], [1])⟩, some [0], 2/5, some []⟩
    ∧ Featurizer.from_dict R0 dMismatch ≠ Except.error PyErr.stateMismatchError := by
  exact ⟨by decide, by decide, by decide, by decide⟩

/-- C8 amended: `from_dict` raises an UnknownLanguageError when the
language code is not recognized, before any Featurizer is constructed; it
performs no vocabulary/IDF length validation, so a mismatched state is
accepted silently. -/
theorem from_dict_unknown_language_error {α : Type} (R : Resources) (d : SerializedFeaturizer α)
    (h : R.knownLanguages.find? (fun l => decide (l.isoCode = d.languageCode)) = none) :
    Featurizer.from_dict R d = Except.error PyErr.unknownLanguageError := by
  unfold Featurizer.from_dict
  rw [h]

/-- A serialized state with an unrecognized language code. -/
def dUnknownLang : SerializedFeaturizer ℚ := ⟨"zz", ["u"], [1], some [0], 2/5, []⟩

/-- Witness for the amended C8. -/
theorem from_dict_unknown_language_error_witness :
    R0.knownLanguages.find? (fun l => decide (l.isoCode = dUnknownLang.languageCode)) = none
    ∧ Featurizer.from_dict R0 dUnknownLang = Except.error PyErr.unknownLanguageError :=
  ⟨by decide, from_dict_unknown_language_error R0 dUnknownLang (by decide)⟩

/-- C7 counterexample: calling `transform` on a freshly constructed
(never fitted) Featurizer with a query that has tokens fails while
preprocessing, with an AttributeError (the entity index is `None`), not
with a NotFittedError. -/
theorem transform_unfitted_attribute_error_cx :
    Featurizer.transform EQ0 (Featurizer.mkDefault enLang : Featurizer ℚ) ["hello"]
      = Except.error PyErr.attributeError
    ∧ PyErr.attributeError ≠ PyErr.notFittedError := by
  exact ⟨by decide, by decide⟩

/-- C1: serialization round-trip.  For a fitted Featurizer `F` whose
serialized form is `d` (so `to_dict` succeeded) and whose language is the
canonical recognized instance for its ISO code, a Featurizer `F2`
reconstructed by `from_dict` is equal to `F`, and in particular its
`transform` agrees with that of `F` on every query list: same language,
same vocabulary mapping, same IDF values, same selected features, same
entity index. -/
theorem roundtrip_transform_eq {α : Type} [LinearOrderedField α] (E : Externals α)
    (F F2 : Featurizer α) (d : SerializedFeaturizer α) (Q : List String)
    (hd : F.to_dict = Except.ok d)
    (hlang : E.R.knownLanguages.find? (fun l => decide (l.isoCode = F.language.isoCode))
        = some F.language)
    (hF2 : Featurizer.from_dict E.R d = Except.ok F2) :
    F2 = F ∧ Featurizer.transform E F2 Q = Featurizer.transform E F Q := by
  have hFF : F2 = F := by
    unfold Featurizer.to_dict at hd
    split at hd
    next vi m hvi hm =>
      injection hd with hrec
      subst hrec
      unfold Featurizer.from_dict at hF2
      dsimp only at hF2
      rw [hlang] at hF2
      injection hF2 with hrec2
      obtain ⟨lang, ⟨fitted⟩, bf, pt, em⟩ := F
      simp only at hvi hm
      subst hvi
      subst hm
      simp [deserialize_tfidf_vectorizer] at hrec2
      exact hrec2.symm
    next h =>
      cases hd
  exact ⟨hFF, by rw [hFF]⟩

/-- A concrete fitted Featurizer for the round-trip witness. -/
def F0 : Featurizer ℚ :=
  ⟨enLang, ⟨some (["u"], [1])⟩, some [0], 2/5, some [("paris", ["city"])]⟩

/-- The serialized state of `F0`. -/
def d0 : SerializedFeaturizer ℚ :=
  ⟨"en", ["u"], [1], some [0], 2/5, [("paris", ["city"])]⟩

/-- Witness for C1 at a concrete fitted Featurizer and query list. -/
theorem roundtrip_transform_eq_witness :
    F0.to_dict = Except.ok d0
    ∧ EQ0.R.knownLanguages.find? (fun l => decide (l.isoCode = F0.language.isoCode))
        = some F0.language
    ∧ Featurizer.from_dict EQ0.R d0 = Except.ok F0
    ∧ (F0 = F0 ∧ Featurizer.transform EQ0 F0 ["u paris"] = Featurizer.transform EQ0 F0 ["u paris"]) :=
  ⟨by decide, by decide, by decide,
   roundtrip_transform_eq EQ0 F0 F0 d0 ["u paris"] (by decide) (by decide) (by decide)⟩

/-- The specification-side reading of selection step 2: the indices whose
p-value is strictly below the threshold, in increasing order. -/
def thresholdIndices {α : Type} [LinearOrderedField α] (t : α) (pval : List α) : List ℕ :=
  (List.range pval.length).filter (fun i => decide (pval.getD i 0 < t))

/-- The specification-side reading of selection step 3: the indices tied
for the minimum p-value, in increasing order. -/
def minIndices {α : Type} [LinearOrderedField α] (pval : List α) : List ℕ :=
  (List.range pval.length).filter (fun i => decide (pval.getD i 0 = listMinD pval 0))

lemma enumFrom_filter_map_fst {α : Type} (p : α → Bool) (dflt : α) :
    ∀ (l : List α) (n : ℕ),
      ((List.enumFrom n l).filter (fun q => p q.2)).map Prod.fst
        = ((List.range l.length).filter (fun i => p (l.getD i dflt))).map (fun i => n + i)
  | [], n => by simp
  | a :: l, n => by
      rw [List.enumFrom_cons, List.length_cons, List.range_succ_eq_map]
      cases hpa : p a with
      | false =>
          simp only [List.filter_cons, hpa, List.getD_cons_zero, Bool.false_eq_true, if_false,
            List.filter_map, List.map_map]
          rw [enumFrom_filter_map_fst p dflt l (n + 1)]
          simp [Function.comp_def, List.filter_map, List.map_map, Nat.add_assoc, Nat.add_comm 1]
      | true =>
          simp only [List.filter_cons, hpa, List.getD_cons_zero, if_true]
          simp only [List.map_cons, List.filter_map, List.map_map]
          rw [enumFrom_filter_map_fst p dflt l (n + 1)]
          simp [Function.comp_def, List.filter_map, List.map_map, Nat.add_assoc, Nat.add_comm 1]

lemma enum_filter_map_fst {α : Type} (p : α → Bool) (dflt : α) (l : List α) :
    (l.enum.filter (fun q => p q.2)).map Prod.fst
      = (List.range l.length).filter (fun i => p (l.getD i dflt)) := by
  rw [List.enum]
  rw [enumFrom_filter_map_fst p dflt l 0]
  simp

lemma select_best_features_eq {α : Type} [LinearOrderedField α] (t : α) (pval : List α) :
    select_best_features t pval
      = if thresholdIndices t pval = [] then minIndices pval else thresholdIndices t pval := by
  unfold select_best_features thresholdIndices minIndices
  rw [enum_filter_map_fst (fun v => decide (v < t)) 0 pval,
      enum_filter_map_fst (fun v => decide (v = listMinD pval 0)) 0 pval]
  rcases h : (List.range pval.length).filter (fun i => decide (pval.getD i 0 < t)) with _ | _ <;>
    simp [h]

lemma foldl_min_mem {α : Type} [LinearOrder α] :
    ∀ (xs : List α) (x : α), List.foldl min x xs = x ∨ List.foldl min x xs ∈ xs
  | [], x => Or.inl rfl
  | y :: ys, x => by
      rcases foldl_min_mem ys (min x y) with h | h
      · rw [List.foldl_cons, h]
        rcases min_choice x y with hm | hm
        · exact Or.inl hm
        · exact Or.inr (by rw [hm]; exact List.mem_cons_self y ys)
      · exact Or.inr (List.mem_cons_of_mem y (by rw [List.foldl_cons]; exact h))

lemma listMinD_mem {α : Type} [LinearOrder α] (l : List α) (d : α) (h : l ≠ []) :
    listMinD l d ∈ l := by
  cases l with
  | nil => exact absurd rfl h
  | cons x xs =>
      rcases foldl_min_mem xs x with h1 | h1
      · rw [listMinD, h1]; exact List.mem_cons_self x xs
      · exact List.mem_cons_of_mem x h1

lemma minIndices_ne_nil {α : Type} [LinearOrderedField α] (pval : List α) (h : pval ≠ []) :
    minIndices pval ≠ [] := by
  have hmem := listMinD_mem pval 0 h
  obtain ⟨⟨i, hi⟩, hget⟩ := List.mem_iff_get.mp hmem
  apply List.ne_nil_of_mem (a := i)
  rw [minIndices, List.mem_filter]
  constructor
  · exact List.mem_range.mpr hi
  · rw [List.getD_eq_getElem pval 0 hi]
    simp [List.get_eq_getElem] at hget
    simp [hget]

lemma select_best_features_ne_nil {α : Type} [LinearOrderedField α] (t : α) (pval : List α)
    (h : pval ≠ []) : select_best_features t pval ≠ [] := by
  rw [select_best_features_eq]
  split
  · exact minIndices_ne_nil pval h
  · assumption

lemma select_best_features_nodup {α : Type} [LinearOrderedField α] (t : α) (pval : List α) :
    (select_best_features t pval).Nodup := by
  rw [select_best_features_eq]
  split <;> exact List.Nodup.filter _ (List.nodup_range _)

lemma removeStopLoop_eq_filter {α : Type} [LinearOrderedField α] (sw vocab : List String)
    (t : α) (pval : List α) :
    ∀ (todo acc : List ℕ), acc.Nodup →
      removeStopLoop sw vocab t pval acc todo
        = acc.filter (fun i => !(condStop sw vocab t pval i && todo.contains i))
  | [], acc, h => by simp [removeStopLoop]
  | feat :: rest, acc, h => by
      cases hc : condStop sw vocab t pval feat with
      | false =>
          rw [removeStopLoop, if_neg (by simp [hc])]
          rw [removeStopLoop_eq_filter sw vocab t pval rest acc h]
          apply List.filter_congr
          intro i hi
          by_cases hif : i = feat
          · subst hif; simp [hc]
          · simp [List.contains_cons, hif, Ne.symm hif]
      | true =>
          rw [removeStopLoop, if_pos (by simp [hc])]
          rw [removeStopLoop_eq_filter sw vocab t pval rest (acc.erase feat) (h.erase feat)]
          rw [List.Nodup.erase_eq_filter h feat, List.filter_filter]
          apply List.filter_congr
          intro i hi
          by_cases hif : i = feat
          · subst hif; simp [hc]
          · simp [List.contains_cons, hif, Ne.symm hif]

lemma remove_stop_eq_filter {α : Type} [LinearOrderedField α] (sw vocab : List String)
    (t : α) (pval : List α) (best : List ℕ) (h : best.Nodup) :
    remove_stop_features sw vocab t pval best
      = best.filter (fun i => !condStop sw vocab t pval i) := by
  rw [remove_stop_features, removeStopLoop_eq_filter sw vocab t pval best best h]
  apply List.filter_congr
  intro i hi
  have hcont : best.contains i = true := List.elem_eq_true_of_mem hi
  rw [hcont, Bool.and_true]

/-- C6: given the per-column p-values, the selection keeps exactly the
indices with p-value strictly below the threshold; exactly when that set
is empty it instead keeps exactly the indices tied for the minimum
p-value, so the pre-demotion selection is non-empty whenever the p-value
list (one entry per vocabulary column) is non-empty. -/
theorem select_threshold_and_fallback {α : Type} [LinearOrderedField α] (t : α) (pval : List α)
    (hne : pval ≠ []) :
    select_best_features t pval
      = (if thresholdIndices t pval = [] then minIndices pval else thresholdIndices t pval)
    ∧ select_best_features t pval ≠ [] :=
  ⟨select_best_features_eq t pval, select_best_features_ne_nil t pval hne⟩

/-- Witness for C6, exercising the fallback branch: with threshold 1/10 no
p-value of `[1/2, 1/4, 1/4]` qualifies, and the two indices tied for the
minimum are kept. -/
theorem select_threshold_and_fallback_witness :
    ([1/2, 1/4, 1/4] : List ℚ) ≠ []
    ∧ (select_best_features (1/10 : ℚ) [1/2, 1/4, 1/4]
         = (if thresholdIndices (1/10 : ℚ) [1/2, 1/4, 1/4] = []
            then minIndices ([1/2, 1/4, 1/4] : List ℚ)
            else thresholdIndices (1/10 : ℚ) [1/2, 1/4, 1/4])
       ∧ select_best_features (1/10 : ℚ) [1/2, 1/4, 1/4] ≠ [])
    ∧ select_best_features (1/10 : ℚ) [1/2, 1/4, 1/4] = [1, 2] :=
  ⟨by decide, select_threshold_and_fallback (1/10) [1/2, 1/4, 1/4] (by decide), by decide⟩

/-- C5: in the selection stored by a successful fit, a selected term is
removed by the stop-word demotion pass exactly when its surface form is a
stop word of the language and its p-value strictly exceeds half the
threshold; all other selected terms survive (the loop equals a pure filter
over the selection snapshot). -/
theorem stop_word_demotion_rule {α : Type} [LinearOrderedField α] (E : Externals α)
    (st : Featurizer α) (ds : Dataset) (qs : List String) (y : List ℕ)
    (hdeg : degenerateCorpus E.R st.language qs = false) :
    (Featurizer.fit E st ds qs y).1.bestFeatures
      = some ((select_best_features st.pvalueThreshold (fitPvals E st.language ds qs y)).filter
          (fun i => decide (¬((fitVocab E.R st.language ds qs).getD i "" ∈ E.R.stopWords st.language
              ∧ st.pvalueThreshold / 2 < (fitPvals E st.language ds qs y).getD i 0)))) := by
  rw [fit_success E st ds qs y hdeg]
  show (fittedState E st ds qs y).bestFeatures = _
  simp only [fittedState]
  rw [remove_stop_eq_filter _ _ _ _ _ (select_best_features_nodup _ _)]
  have hfun : (fun i => !condStop (E.R.stopWords st.language) (fitVocab E.R st.language ds qs)
        st.pvalueThreshold (fitPvals E st.language ds qs y) i)
      = (fun i => decide (¬((fitVocab E.R st.language ds qs).getD i "" ∈ E.R.stopWords st.language
          ∧ st.pvalueThreshold / 2 < (fitPvals E st.language ds qs y).getD i 0))) := by
    funext i
    simp only [condStop, decide_not]
  rw [hfun]

/-- Externals whose chi-squared kernel reports the single p-value 1/2. -/
def EQ4 : Externals ℚ :=
  { R := R0, sqrtFn := fun x => x, idfOf := fun _ _ => 1, chi2pvals := fun _ _ => [1/2] }

/-- Externals whose chi-squared kernel reports p-values `0.9 * 0.4`,
`0.1 * 0.4` and `1/2` for a three-term vocabulary. -/
def EQ5 : Externals ℚ :=
  { R := R0, sqrtFn := fun x => x, idfOf := fun _ _ => 1,
    chi2pvals := fun _ _ => [9/25, 1/25, 1/2] }

/-- Externals whose chi-squared kernel reports the single p-value 1/4. -/
def EQ6 : Externals ℚ :=
  { R := R0, sqrtFn := fun x => x, idfOf := fun _ _ => 1, chi2pvals := fun _ _ => [1/4] }

/-- Witness for C5: vocabulary `["a","b","c"]` with stop words `a`, `b`,
threshold 0.4 and p-values `[0.36, 0.04, 0.5]`; the stop word at p-value
`0.9 * threshold` is removed, the one at `0.1 * threshold` is retained,
and the final selection is `[1]`. -/
theorem stop_word_demotion_rule_witness :
    degenerateCorpus EQ5.R (Featurizer.mkDefault enLang : Featurizer ℚ).language ["a b c"] = false
    ∧ (Featurizer.fit EQ5 (Featurizer.mkDefault enLang : Featurizer ℚ) dsEmpty ["a b c"] [0]).1.bestFeatures
        = some ((select_best_features (Featurizer.mkDefault enLang : Featurizer ℚ).pvalueThreshold
            (fitPvals EQ5 (Featurizer.mkDefault enLang : Featurizer ℚ).language dsEmpty ["a b c"] [0])).filter
          (fun i => decide (¬((fitVocab EQ5.R (Featurizer.mkDefault enLang : Featurizer ℚ).language dsEmpty ["a b c"]).getD i ""
                ∈ EQ5.R.stopWords (Featurizer.mkDefault enLang : Featurizer ℚ).language
              ∧ (Featurizer.mkDefault enLang : Featurizer ℚ).pvalueThreshold / 2
                < (fitPvals EQ5 (Featurizer.mkDefault enLang : Featurizer ℚ).language dsEmpty ["a b c"] [0]).getD i 0))))
    ∧ (Featurizer.fit EQ5 (Featurizer.mkDefault enLang : Featurizer ℚ) dsEmpty ["a b c"] [0]).1.bestFeatures = some [1] :=
  ⟨by decide,
   stop_word_demotion_rule EQ5 (Featurizer.mkDefault enLang) dsEmpty ["a b c"] [0] (by decide),
   by decide⟩

/-- C4 counterexample: a successful fit with the non-empty vocabulary
`["a"]` whose only term is a stop word with p-value `1/2 > threshold/2`
ends with an empty stored selection: the demotion pass empties
`best_features`. -/
theorem fit_selection_can_be_emptied_cx :
    (Featurizer.fit EQ4 (Featurizer.mkDefault enLang : Featurizer ℚ) dsEmpty ["a"] [0]).2.isSome = true
    ∧ ((Featurizer.fit EQ4 (Featurizer.mkDefault enLang : Featurizer ℚ) dsEmpty ["a"] [0]).1.tfidfVectorizer.fitted).map
        (fun vi => vi.1) = some ["a"]
    ∧ (Featurizer.fit EQ4 (Featurizer.mkDefault enLang : Featurizer ℚ) dsEmpty ["a"] [0]).1.bestFeatures = some [] := by
  exact ⟨by decide, by decide, by decide⟩

/-- C4 amended: after a successful fit with a non-empty vocabulary the
selection is non-empty before the stop-word demotion pass (the stored
`best_features` is that selection after demotion, which can be empty). -/
theorem fit_selection_nonempty_before_demotion {α : Type} [LinearOrderedField α] (E : Externals α)
    (st : Featurizer α) (ds : Dataset) (qs : List String) (y : List ℕ)
    (hdeg : degenerateCorpus E.R st.language qs = false)
    (hvocab : fitVocab E.R st.language ds qs ≠ [])
    (hlen : (fitPvals E st.language ds qs y).length = (fitVocab E.R st.language ds qs).length) :
    (Featurizer.fit E st ds qs y).2 = some (Featurizer.fit E st ds qs y).1
    ∧ select_best_features st.pvalueThreshold (fitPvals E st.language ds qs y) ≠ []
    ∧ (Featurizer.fit E st ds qs y).1.bestFeatures
        = some (remove_stop_features (E.R.stopWords st.language) (fitVocab E.R st.language ds qs)
            st.pvalueThreshold (fitPvals E st.language ds qs y)
            (select_best_features st.pvalueThreshold (fitPvals E st.language ds qs y))) := by
  rw [fit_success E st ds qs y hdeg]
  refine ⟨rfl, ?_, rfl⟩
  apply select_best_features_ne_nil
  intro hnil
  rw [hnil] at hlen
  exact hvocab (List.length_eq_zero.mp hlen.symm)

/-- Witness for the amended C4: a successful fit on the one-term
vocabulary `["c"]` (not a stop word, p-value 1/4) keeps selection `[0]`. -/
theorem fit_selection_nonempty_before_demotion_witness :
    degenerateCorpus EQ6.R (Featurizer.mkDefault enLang : Featurizer ℚ).language ["c"] = false
    ∧ fitVocab EQ6.R (Featurizer.mkDefault enLang : Featurizer ℚ).language dsEmpty ["c"] ≠ []
    ∧ (fitPvals EQ6 (Featurizer.mkDefault enLang : Featurizer ℚ).language dsEmpty ["c"] [0]).length
        = (fitVocab EQ6.R (Featurizer.mkDefault enLang : Featurizer ℚ).language dsEmpty ["c"]).length
    ∧ ((Featurizer.fit EQ6 (Featurizer.mkDefault enLang : Featurizer ℚ) dsEmpty ["c"] [0]).2
         = some (Featurizer.fit EQ6 (Featurizer.mkDefault enLang : Featurizer ℚ) dsEmpty ["c"] [0]).1
       ∧ select_best_features (Featurizer.mkDefault enLang : Featurizer ℚ).pvalueThreshold
           (fitPvals EQ6 (Featurizer.mkDefault enLang : Featurizer ℚ).language dsEmpty ["c"] [0]) ≠ []
       ∧ (Featurizer.fit EQ6 (Featurizer.mkDefault enLang : Featurizer ℚ) dsEmpty ["c"] [0]).1.bestFeatures
           = some (remove_stop_features
               (EQ6.R.stopWords (Featurizer.mkDefault enLang : Featurizer ℚ).language)
               (fitVocab EQ6.R (Featurizer.mkDefault enLang : Featurizer ℚ).language dsEmpty ["c"])
               (Featurizer.mkDefault enLang : Featurizer ℚ).pvalueThreshold
               (fitPvals EQ6 (Featurizer.mkDefault enLang : Featurizer ℚ).language dsEmpty ["c"] [0])
               (select_best_features (Featurizer.mkDefault enLang : Featurizer ℚ).pvalueThreshold
                 (fitPvals EQ6 (Featurizer.mkDefault enLang : Featurizer ℚ).language dsEmpty ["c"] [0]))))
    ∧ (Featurizer.fit EQ6 (Featurizer.mkDefault enLang : Featurizer ℚ) dsEmpty ["c"] [0]).1.bestFeatures = some [0] :=
  ⟨by decide, by decide, by decide,
   fit_selection_nonempty_before_demotion EQ6 (Featurizer.mkDefault enLang) dsEmpty ["c"] [0]
     (by decide) (by decide) (by decide),
   by decide⟩

/-- Modelled from the spec: the smoothed IDF formula of the external
Term-Weight Vectorizer, `idf = ln((1+N)/(1+df)) + 1` (sklearn's
`TfidfVectorizer` is outside this repository). -/
noncomputable def specIdf (N df : ℕ) : ℝ :=
  Real.log ((1 + (N : ℝ)) / (1 + (df : ℝ))) + 1

/-- C9: when the external IDF kernel is the spec's exact formula, a
successful fit over N queries stores, for each vocabulary term `t` and
index-aligned with the vocabulary, the weight `ln((1+N)/(1+df(t))) + 1`,
and `to_dict` serializes exactly this sequence as `idf_diag`. -/
theorem fit_idf_formula (E : Externals ℝ) (st : Featurizer ℝ) (ds : Dataset)
    (qs : List String) (y : List ℕ)
    (hidf : E.idfOf = specIdf)
    (hdeg : degenerateCorpus E.R st.language qs = false) :
    (Featurizer.fit E st ds qs y).2 = some (Featurizer.fit E st ds qs y).1
    ∧ (Featurizer.fit E st ds qs y).1.tfidfVectorizer.fitted
        = some (fitVocab E.R st.language ds qs,
            (fitVocab E.R st.language ds qs).map
              (fun t => specIdf qs.length (docFreq (fitTerms E.R st.language ds qs) t)))
    ∧ (Featurizer.to_dict (Featurizer.fit E st ds qs y).1).map (fun d => d.idfDiag)
        = Except.ok ((fitVocab E.R st.language ds qs).map
            (fun t => specIdf qs.length (docFreq (fitTerms E.R st.language ds qs) t))) := by
  have hN : (fitTerms E.R st.language ds qs).length = qs.length := by
    simp [fitTerms, fitCorpusTerms]
  have hdiag : fitIdfDiag E st.language ds qs
      = (fitVocab E.R st.language ds qs).map
          (fun t => specIdf qs.length (docFreq (fitTerms E.R st.language ds qs) t)) := by
    unfold fitIdfDiag fitIdf
    rw [hidf]
    simp only [hN]
    rfl
  rw [fit_success E st ds qs y hdeg]
  refine ⟨rfl, ?_, ?_⟩
  · show (fittedState E st ds qs y).tfidfVectorizer.fitted = _
    simp only [fittedState]
    rw [hdiag]
  · show (Featurizer.to_dict (fittedState E st ds qs y)).map (fun d => d.idfDiag) = _
    simp only [fittedState, Featurizer.to_dict]
    rw [hdiag]
    rfl

/-- Real-valued externals built from the concrete witness resources, the
spec's IDF formula and the real square root. -/
noncomputable def ER0 : Externals ℝ :=
  { R := R0, sqrtFn := Real.sqrt, idfOf := specIdf, chi2pvals := fun _ _ => [] }

/-- Witness for C9 at a concrete corpus with an entity-bearing dataset. -/
theorem fit_idf_formula_witness :
    ER0.idfOf = specIdf
    ∧ degenerateCorpus ER0.R (Featurizer.mkDefault enLang : Featurizer ℝ).language ["u paris"] = false
    ∧ ((Featurizer.fit ER0 (Featurizer.mkDefault enLang : Featurizer ℝ) dsCity ["u paris"] [0]).2
         = some (Featurizer.fit ER0 (Featurizer.mkDefault enLang : Featurizer ℝ) dsCity ["u paris"] [0]).1
       ∧ (Featurizer.fit ER0 (Featurizer.mkDefault enLang : Featurizer ℝ) dsCity ["u paris"] [0]).1.tfidfVectorizer.fitted
           = some (fitVocab ER0.R (Featurizer.mkDefault enLang : Featurizer ℝ).language dsCity ["u paris"],
               (fitVocab ER0.R (Featurizer.mkDefault enLang : Featurizer ℝ).language dsCity ["u paris"]).map
                 (fun t => specIdf (["u paris"] : List String).length
                   (docFreq (fitTerms ER0.R (Featurizer.mkDefault enLang : Featurizer ℝ).language dsCity ["u paris"]) t)))
       ∧ (Featurizer.to_dict (Featurizer.fit ER0 (Featurizer.mkDefault enLang : Featurizer ℝ) dsCity ["u paris"] [0]).1).map
             (fun d => d.idfDiag)
           = Except.ok ((fitVocab ER0.R (Featurizer.mkDefault enLang : Featurizer ℝ).language dsCity ["u paris"]).map
               (fun t => specIdf (["u paris"] : List String).length
                 (docFreq (fitTerms ER0.R (Featurizer.mkDefault enLang : Featurizer ℝ).language dsCity ["u paris"]) t)))) :=
  ⟨rfl, by decide,
   fit_idf_formula ER0 (Featurizer.mkDefault enLang) dsCity ["u paris"] [0] rfl (by decide)⟩

lemma preprocess_query_some (R : Resources) (language : Language) (q : String) (m : EntityIndex) :
    preprocess_query R q language (some m) = Except.ok (preprocess_query_fit R q language m) := rfl

lemma preprocessQueriesList_some (R : Resources) (language : Language) (m : EntityIndex) :
    ∀ qs : List String,
      preprocessQueriesList R language (some m) qs
        = Except.ok (qs.map (fun q => preprocess_query_fit R q language m))
  | [] => rfl
  | q :: rest => by
      rw [preprocessQueriesList, preprocess_query_some,
        preprocessQueriesList_some R language m rest]
      rfl

lemma preprocessQueriesList_none_error (R : Resources) (language : Language) :
    ∀ qs : List String,
      qs.all (fun q => (queryNgrams R language q).isEmpty) = false →
      preprocessQueriesList R language none qs = Except.error PyErr.attributeError
  | [], h => by simp at h
  | q :: rest, h => by
      rw [List.all_cons] at h
      cases hq : (queryNgrams R language q).isEmpty with
      | false =>
          have hq2 : (R.allNgrams ((R.tokenizeLight q language).map
              (fun t => normalize_stem R t language))).isEmpty = false := hq
          simp only [preprocessQueriesList, preprocess_query, get_dataset_entities_features_opt,
            hq2, Bool.false_eq_true, if_false]
      | true =>
          rw [hq, Bool.true_and] at h
          have hq2 : (R.allNgrams ((R.tokenizeLight q language).map
              (fun t => normalize_stem R t language))).isEmpty = true := hq
          simp only [preprocessQueriesList, preprocess_query, get_dataset_entities_features_opt,
            hq2, if_true, preprocessQueriesList_none_error R language rest h]
          rfl

/-- C7 amended: `transform` on a never-fitted Featurizer always fails, but
the exception kind depends on the state: after a fit aborted on a
degenerate corpus (entity index present, vectorizer unfitted) it fails
with NotFittedError on any query list, while on a freshly constructed
Featurizer (entity index `None`) it fails with an AttributeError during
preprocessing as soon as some query yields n-grams. -/
theorem transform_unfitted_error_kinds {α : Type} [LinearOrderedField α] (E : Externals α)
    (language : Language) (ds : Dataset) (dq qs : List String) (y : List ℕ)
    (hdeg : degenerateCorpus E.R language dq = true)
    (hng : qs.all (fun q => (queryNgrams E.R language q).isEmpty) = false) :
    Featurizer.transform E
        (Featurizer.fit E (Featurizer.mkDefault language : Featurizer α) ds dq y).1 qs
      = Except.error PyErr.notFittedError
    ∧ Featurizer.transform E (Featurizer.mkDefault language : Featurizer α) qs
      = Except.error PyErr.attributeError := by
  constructor
  · rw [fit_degenerate E (Featurizer.mkDefault language) ds dq y hdeg]
    unfold Featurizer.transform
    rw [show ({ Featurizer.mkDefault language with
          entityMap := some (entityIndexOfDataset E.R (Featurizer.mkDefault language : Featurizer α).language ds) } : Featurizer α).entityMap
        = some (entityIndexOfDataset E.R language ds) from rfl]
    rw [preprocessQueriesList_some]
    rfl
  · unfold Featurizer.transform
    dsimp only [Featurizer.mkDefault]
    rw [preprocessQueriesList_none_error E.R language qs hng]

/-- Witness for the amended C7: aborted fit then `transform ["hello"]`
fails with NotFittedError; fresh Featurizer fails with AttributeError. -/
theorem transform_unfitted_error_kinds_witness :
    degenerateCorpus EQ0.R enLang ["", "   "] = true
    ∧ (["hello"] : List String).all (fun q => (queryNgrams EQ0.R enLang q).isEmpty) = false
    ∧ (Featurizer.transform EQ0
          (Featurizer.fit EQ0 (Featurizer.mkDefault enLang : Featurizer ℚ) dsEmpty ["", "   "] []).1 ["hello"]
        = Except.error PyErr.notFittedError
       ∧ Featurizer.transform EQ0 (Featurizer.mkDefault enLang : Featurizer ℚ) ["hello"]
        = Except.error PyErr.attributeError) :=
  ⟨by decide, by decide,
   transform_unfitted_error_kinds EQ0 enLang dsEmpty ["", "   "] ["hello"] [] (by decide) (by decide)⟩

end Snips
